import Mathlib

/-!
Verification of the Payflow authentication backend (Node/MySQL path).

The definitions below are a shallow embedding of the repository's
authentication core:

* `src/backend/src/models/user.js`   — user store (findUserByEmail,
  findUserById, createUser)
* OTP store functions (findValidOTP, createOTP, markOTPAsUsed,
  invalidateUnusedOTPs) as given in `src/backend/MIGRATION_GUIDE.md`
* `src/backend/src/utils/otp.js`     — generateOTP, getOTPExpiration,
  isValidOTPFormat
* the controllers signup / login / verifyOTP / getCurrentUser and the
  authenticate middleware (Node controller file, MySQL variant)

External collaborators (bcryptjs, the `validator` npm package, jsonwebtoken,
the MySQL driver) are modelled as components of an explicit environment
record `Env`; the store itself is a pure value of type `DB` threaded through
the operations.  Time is an integer millisecond timestamp, `Math.random()` a
rational in `[0,1)`.
-/

namespace Payflow

/-! ### JS string primitives

`String.prototype.toLowerCase` and `trim` are modelled on the underlying
character list (ASCII case mapping, which is all the repository's data uses).
-/

/-- ASCII lower-casing of one character, as JS `toLowerCase` acts on `A`-`Z`. -/
def lowerChar (c : Char) : Char :=
  if 65 ≤ c.toNat ∧ c.toNat ≤ 90 then Char.ofNat (c.toNat + 32) else c

/-- JS `s.toLowerCase()`. -/
def jsToLower (s : String) : String := ⟨s.data.map lowerChar⟩

/-- JS whitespace (the forms occurring in this code base). -/
def jsWhitespace (c : Char) : Bool :=
  c = ' ' || c = '\t' || c = '\n' || c = '\r'

/-- JS `s.trim()`: strip whitespace from both ends. -/
def jsTrim (s : String) : String :=
  ⟨((s.data.dropWhile jsWhitespace).reverse.dropWhile jsWhitespace).reverse⟩

/-- The email canonicalization used throughout the stores:
`email.toLowerCase().trim()`. -/
def normEmail (email : String) : String := jsTrim (jsToLower email)

/-- Does `sub` occur as a contiguous segment of `l`? -/
def segmentOf (sub : List Char) : List Char → Bool
  | [] => sub.isEmpty
  | c :: rest => sub.isPrefixOf (c :: rest) || segmentOf sub rest

/-- JS `s.includes(sub)` (substring test). -/
def strIncludes (s sub : String) : Bool := segmentOf sub.data s.data

/-- JS `s.padStart(len, c)`. -/
def jsPadStart (s : String) (len : Nat) (c : Char) : String :=
  if len ≤ s.length then s else ⟨List.replicate (len - s.length) c ++ s.data⟩

/-! ### Data model

Rows of the two MySQL tables (schema file `users` / `otps`).  Timestamps are
integer milliseconds; `passwordChangedAt` is nullable.
-/

/-- A row of the `users` table. -/
structure UserRow where
  id : Nat
  FullName : String
  Email : String
  Password : String
  passwordChangedAt : Option Int
  createdAt : Int
  updatedAt : Int
deriving Repr, DecidableEq

/-- A row of the `otps` table. -/
structure OtpRow where
  id : Nat
  Email : String
  OTP : String
  expiresAt : Int
  used : Bool
  createdAt : Int
deriving Repr, DecidableEq

/-- The relational store: both tables plus the AUTO_INCREMENT counters. -/
structure DB where
  users : List UserRow
  otps : List OtpRow
  nextUserId : Nat
  nextOtpId : Nat
deriving Repr, DecidableEq

/-- The row set a `SELECT` on `users` returns: `Password` is present only
when the caller asked for it (`includePassword`); `passwordChangedAt` is
always part of the selected columns, `Password?` is `none` when the column
was excluded from the projection. -/
structure UserSel where
  id : Nat
  FullName : String
  Email : String
  Password? : Option String
  passwordChangedAt : Option Int
  createdAt : Int
  updatedAt : Int
deriving Repr, DecidableEq

/-- Column projection performed by the two SELECT shapes in `user.js`. -/
def selectUser (includePassword : Bool) (u : UserRow) : UserSel :=
  { id := u.id
    FullName := u.FullName
    Email := u.Email
    Password? := if includePassword then some u.Password else none
    passwordChangedAt := u.passwordChangedAt
    createdAt := u.createdAt
    updatedAt := u.updatedAt }

/-- A JS exception as the controllers observe it: an optional driver error
code (`error.code`) and a message (`error.message`). -/
structure JsError where
  code? : Option String
  message : String
deriving Repr, DecidableEq

/-- Outcome of `jwt.verify`: a decoded `userId`, a `JsonWebTokenError`, or a
`TokenExpiredError`. -/
inductive JwtOut where
  | ok (userId : Nat)
  | bad
  | expired
deriving Repr, DecidableEq

/-- The execution environment: current time, the `Math.random()` draw, and
the external collaborators (bcryptjs, the `validator` package, jsonwebtoken)
as opaque-to-the-code function parameters. -/
structure Env where
  now : Int
  random : ℚ
  hashFn : String → String
  verifyFn : String → String → Bool
  isEmail : String → Bool
  jwtSign : Nat → String
  jwtVerify : String → JwtOut

/-! ### User store (`src/backend/src/models/user.js`) -/

/-- `findUserByEmail(email, includePassword = false)`:
`SELECT ... FROM users WHERE Email = ?` on the canonicalized email,
returning the first row or null. -/
def findUserByEmail (db : DB) (email : String) (includePassword : Bool) :
    Option UserSel :=
  (db.users.find? (fun u => u.Email == normEmail email)).map
    (selectUser includePassword)

/-- `findUserById(userId, includePassword = false)`:
`SELECT ... FROM users WHERE id = ?`. -/
def findUserById (db : DB) (userId : Nat) (includePassword : Bool) :
    Option UserSel :=
  (db.users.find? (fun u => u.id == userId)).map (selectUser includePassword)

/-- The `PASSWORD_REGEX` of `user.js`:
`^(?=.*[a-z])(?=.*[A-Z])(?=.*\d)(?=.*[@$!%*?&])[A-Za-z\d@$!%*?&]{8,64}$`. -/
def passwordRegexTest (s : String) : Bool :=
  let specials : List Char := ['@', '$', '!', '%', '*', '?', '&']
  s.data.any (fun c => c.isLower) &&
  s.data.any (fun c => c.isUpper) &&
  s.data.any (fun c => c.isDigit) &&
  s.data.any (fun c => specials.contains c) &&
  decide (8 ≤ s.data.length) && decide (s.data.length ≤ 64) &&
  s.data.all (fun c => c.isAlpha || c.isDigit || specials.contains c)

/-- The full-name character class `[a-zA-Z\s'-]` of `createUser`. -/
def nameCharOk (c : Char) : Bool :=
  c.isAlpha || jsWhitespace c || c == Char.ofNat 39 || c == Char.ofNat 45

/-- Argument record of `createUser` (the object literal the controllers
pass). -/
structure NewUser where
  FullName : String
  Email : String
  Password : String

/-- `createUser(userData)`: application-level validation, then
`INSERT INTO users (FullName, Email, Password) VALUES (?, ?, ?)`, then a
re-fetch of the created row.  Validation failures are thrown `Error`s; a
UNIQUE-constraint violation on `Email` surfaces as the driver error
`ER_DUP_ENTRY`.  Note that the `Password` this function receives from
`signup` is the bcrypt *hash*, and that `PASSWORD_REGEX` is nonetheless
applied to it. -/
def createUser (env : Env) (db : DB) (userData : NewUser) :
    Except JsError (Option UserSel × DB) :=
  if userData.FullName = "" then
    .error ⟨none, "Full Name is required"⟩
  else
  let trimmedName := jsTrim userData.FullName
  if trimmedName.data.length < 2 ∨ trimmedName.data.length > 100 then
    .error ⟨none, "Full Name must be between 2 and 100 characters"⟩
  else if trimmedName.data.all nameCharOk = false then
    .error ⟨none, "Full Name can only contain letters, spaces, hyphens, and apostrophes"⟩
  else if userData.Email = "" then
    .error ⟨none, "Email is required"⟩
  else
  let normalizedEmail := normEmail userData.Email
  if normalizedEmail.data.length > 254 then
    .error ⟨none, "Email is too long"⟩
  else if env.isEmail normalizedEmail = false then
    .error ⟨none, "Please enter a valid email"⟩
  else if userData.Password = "" then
    .error ⟨none, "Password is required"⟩
  else if userData.Password.data.length < 8 ∨ userData.Password.data.length > 64 then
    .error ⟨none, "Password must be between 8 and 64 characters"⟩
  else if passwordRegexTest userData.Password = false then
    .error ⟨none, "Password must include uppercase, lowercase, number and special character"⟩
  else if db.users.any (fun u => u.Email == normalizedEmail) = true then
    .error ⟨some "ER_DUP_ENTRY", "Duplicate entry for key users.Email"⟩
  else
  let row : UserRow :=
    { id := db.nextUserId
      FullName := trimmedName
      Email := normalizedEmail
      Password := userData.Password
      passwordChangedAt := none
      createdAt := env.now
      updatedAt := env.now }
  let db' : DB := { db with users := db.users ++ [row], nextUserId := db.nextUserId + 1 }
  .ok (findUserById db' row.id false, db')

/-! ### OTP store (model functions listed in `src/backend/MIGRATION_GUIDE.md`) -/

/-- The WHERE clause of `findValidOTP`:
`Email = ? AND OTP = ? AND used = 0 AND expiresAt > NOW()` with the email
parameter canonicalized. -/
def otpMatches (env : Env) (email code : String) (r : OtpRow) : Bool :=
  r.Email == normEmail email && r.OTP == code && r.used == false &&
  decide (env.now < r.expiresAt)

/-- `ORDER BY createdAt DESC LIMIT 1`: pick a matching row of maximal
`createdAt` (the first listed row wins ties, as SQL leaves tie order
unspecified). -/
def pickLatest : List OtpRow → Option OtpRow
  | [] => none
  | r :: rs =>
    match pickLatest rs with
    | none => some r
    | some b => if r.createdAt < b.createdAt then some b else some r

/-- `findValidOTP(email, otpCode)`. -/
def findValidOTP (env : Env) (db : DB) (email otpCode : String) : Option OtpRow :=
  pickLatest (db.otps.filter (otpMatches env email otpCode))

/-- `findOTPById(otpId)`. -/
def findOTPById (db : DB) (otpId : Nat) : Option OtpRow :=
  db.otps.find? (fun r => r.id == otpId)

/-- Argument record of `createOTP`. -/
structure NewOtp where
  Email : String
  OTP : String
  expiresAt : Int

/-- `createOTP(otpData)`:
`INSERT INTO otps (Email, OTP, expiresAt, used) VALUES (?, ?, ?, 0)` on the
canonicalized email (`createdAt` defaults to `CURRENT_TIMESTAMP`), then a
re-fetch of the inserted row. -/
def createOTP (env : Env) (db : DB) (otpData : NewOtp) : Option OtpRow × DB :=
  let row : OtpRow :=
    { id := db.nextOtpId
      Email := normEmail otpData.Email
      OTP := otpData.OTP
      expiresAt := otpData.expiresAt
      used := false
      createdAt := env.now }
  let db' : DB := { db with otps := db.otps ++ [row], nextOtpId := db.nextOtpId + 1 }
  (findOTPById db' row.id, db')

/-- `markOTPAsUsed(otpId)`: `UPDATE otps SET used = 1 WHERE id = ?`.
The SQL has no `AND used = 0` condition and the function does not inspect
the affected-row count. -/
def markOTPAsUsed (db : DB) (otpId : Nat) : DB :=
  { db with otps := db.otps.map (fun r => if r.id == otpId then { r with used := true } else r) }

/-- `invalidateUnusedOTPs(email)`:
`UPDATE otps SET used = 1 WHERE Email = ? AND used = 0` on the canonicalized
email. -/
def invalidateUnusedOTPs (db : DB) (email : String) : DB :=
  { db with otps :=
      db.otps.map (fun r =>
        if r.Email == normEmail email && r.used == false
        then { r with used := true } else r) }

/-! ### OTP utilities (`src/backend/src/utils/otp.js`) -/

/-- The integer computed by `generateOTP`:
`Math.floor(100000 + Math.random() * 900000)` with the random draw `r`. -/
def otpNum (r : ℚ) : Nat := (⌊(100000 : ℚ) + r * 900000⌋).toNat

/-- `generateOTP()`: `otp.toString().padStart(6, '0')`. -/
def generateOTP (r : ℚ) : String := jsPadStart (Nat.repr (otpNum r)) 6 '0'

/-- `getOTPExpiration(minutes = 10)`: now plus `minutes * 60 * 1000` ms. -/
def getOTPExpiration (env : Env) (minutes : Int) : Int :=
  env.now + minutes * 60 * 1000

/-- `isValidOTPFormat(otp)`: the regex `^\d{6}$`. -/
def isValidOTPFormat (otp : String) : Bool :=
  otp.data.length == 6 && otp.data.all (fun c => c.isDigit)

/-! ### HTTP layer -/

/-- The user object as it appears inside a JSON response body.  The two
`Option`-of-`Option` fields record whether the *key* is present at all
(outer layer) and, for `passwordChangedAt`, whether its value is SQL NULL
(inner layer). -/
structure UserView where
  id : Nat
  FullName : String
  Email : String
  createdAt : Int
  updatedAt : Int
  passwordChangedAt? : Option (Option Int) := none
  Password? : Option String := none
deriving Repr, DecidableEq

/-- The explicit five-field projection the `signup` and `verifyOTP`
responses build from the selected row. -/
def explicitView (u : UserSel) : UserView :=
  { id := u.id, FullName := u.FullName, Email := u.Email,
    createdAt := u.createdAt, updatedAt := u.updatedAt }

/-- `getCurrentUser` serializes `req.user` — every column the middleware's
SELECT produced, so `passwordChangedAt` is a present key. -/
def meView (u : UserSel) : UserView :=
  { id := u.id, FullName := u.FullName, Email := u.Email,
    createdAt := u.createdAt, updatedAt := u.updatedAt,
    passwordChangedAt? := some u.passwordChangedAt,
    Password? := u.Password? }

/-- An HTTP response as the controllers produce it: status code, the
`success`/`message` pair, and the optional body fields that appear on the
various paths. -/
structure Response where
  status : Nat
  success : Bool
  message : String
  error? : Option String := none
  userView? : Option UserView := none
  token? : Option String := none
  otp? : Option String := none
  expiresIn? : Option String := none
deriving Repr, DecidableEq

/-- The `catch` block of `signup` (controller file): `ER_DUP_ENTRY` maps to
409; messages containing one of five validation keywords map to 400 with the
raw message in the `error` field; everything else maps to 500, also with the
raw message in the `error` field. -/
def signupCatch (e : JsError) : Response :=
  if e.code? = some "ER_DUP_ENTRY" then
    { status := 409, success := false,
      message := "Email already registered. Please use another email or login." }
  else if (strIncludes e.message "required" || strIncludes e.message "must be" ||
           strIncludes e.message "can only contain" || strIncludes e.message "Invalid" ||
           strIncludes e.message "too long") = true then
    { status := 400, success := false, message := "Validation error",
      error? := some e.message }
  else
    { status := 500, success := false, message := "Error creating user account",
      error? := some e.message }

/-- The `catch` block of `login`: unconditionally 500 with the raw message
in the `error` field. -/
def loginCatch (e : JsError) : Response :=
  { status := 500, success := false, message := "Error during login",
    error? := some e.message }

/-- The `catch` block of `verifyOTP`: unconditionally 500 with the raw
message in the `error` field. -/
def verifyOTPCatch (e : JsError) : Response :=
  { status := 500, success := false, message := "Error verifying OTP",
    error? := some e.message }

/-- Request body of `POST /signup`; a missing field is the empty (falsy)
string. -/
structure SignupReq where
  FullName : String
  Email : String
  Password : String
  ConfirmPassword : String

/-- The `signup` controller. -/
def signup (env : Env) (db : DB) (req : SignupReq) : Response × DB :=
  if req.FullName = "" ∨ req.Email = "" ∨ req.Password = "" ∨
     req.ConfirmPassword = "" then
    ({ status := 400, success := false,
       message := "Please provide Full Name, Email, Password, and Confirm Password" }, db)
  else if req.Password ≠ req.ConfirmPassword then
    ({ status := 400, success := false,
       message := "Password and Confirm Password do not match" }, db)
  else match findUserByEmail db req.Email false with
    | some _ =>
      ({ status := 409, success := false,
         message := "Email already registered. Please use another email or login." }, db)
    | none =>
      let hashedPassword := env.hashFn req.Password
      match createUser env db
          ⟨jsTrim req.FullName, jsToLower req.Email, hashedPassword⟩ with
      | .error e => (signupCatch e, db)
      | .ok (some user, db') =>
        ({ status := 201, success := true,
           message := "User registered successfully",
           userView? := some (explicitView user),
           token? := some (env.jwtSign user.id) }, db')
      | .ok (none, db') =>
        -- reading `user.id` off a null row throws a TypeError, which the
        -- same catch block turns into the generic 500
        (signupCatch ⟨none, "Cannot read properties of null"⟩, db')

/-- Request body of `POST /login`. -/
structure LoginReq where
  Email : String
  Password : String

/-- The `login` controller (login step 1): credential check, then
`generateOTP`, `getOTPExpiration(10)`, `invalidateUnusedOTPs`, `createOTP`,
and a 200 carrying the code. -/
def login (env : Env) (db : DB) (req : LoginReq) : Response × DB :=
  if req.Email = "" ∨ req.Password = "" then
    ({ status := 400, success := false,
       message := "Please provide Email and Password" }, db)
  else match findUserByEmail db req.Email true with
    | none =>
      ({ status := 401, success := false,
         message := "Invalid credentials. Email or password is incorrect." }, db)
    | some user =>
      if env.verifyFn req.Password (user.Password?.getD "") = false then
        ({ status := 401, success := false,
           message := "Invalid credentials. Email or password is incorrect." }, db)
      else
        let otpCode := generateOTP env.random
        let expiresAt := getOTPExpiration env 10
        let db1 := invalidateUnusedOTPs db req.Email
        let (_otpRecord, db2) :=
          createOTP env db1 ⟨jsToLower req.Email, otpCode, expiresAt⟩
        ({ status := 200, success := true,
           message := "Credentials verified. OTP generated. Please verify OTP to complete login.",
           otp? := some otpCode, expiresIn? := some "10 minutes" }, db2)

/-- Request body of `POST /verify-otp`. -/
structure VerifyReq where
  Email : String
  Password : String
  OTP : String

/-- The `verifyOTP` controller (login step 2): field presence, credential
re-verification, `findValidOTP`, `markOTPAsUsed`, token issuance. -/
def verifyOTP (env : Env) (db : DB) (req : VerifyReq) : Response × DB :=
  if req.Email = "" ∨ req.Password = "" ∨ req.OTP = "" then
    ({ status := 400, success := false,
       message := "Please provide Email, Password, and OTP" }, db)
  else match findUserByEmail db req.Email true with
    | none =>
      ({ status := 401, success := false, message := "Invalid credentials." }, db)
    | some user =>
      if env.verifyFn req.Password (user.Password?.getD "") = false then
        ({ status := 401, success := false, message := "Invalid credentials." }, db)
      else match findValidOTP env db req.Email req.OTP with
        | none =>
          ({ status := 401, success := false,
             message := "Invalid or expired OTP. Please request a new OTP." }, db)
        | some otpRecord =>
          let db' := markOTPAsUsed db otpRecord.id
          ({ status := 200, success := true,
             message := "OTP verified successfully. Login complete.",
             userView? := some (explicitView user),
             token? := some (env.jwtSign user.id) }, db')

/-- `GET /me`: the `authenticate` middleware (token extraction, `jwt.verify`,
`findUserById` without password) followed by `getCurrentUser`, which returns
`req.user` unchanged. -/
def meEndpoint (env : Env) (db : DB) (token : String) : Response :=
  if token = "" then
    { status := 401, success := false, message := "Access denied. No token provided." }
  else match env.jwtVerify token with
    | .bad => { status := 401, success := false, message := "Invalid token." }
    | .expired =>
      { status := 401, success := false, message := "Token expired. Please login again." }
    | .ok userId =>
      match findUserById db userId false with
      | none =>
        { status := 401, success := false, message := "Invalid token. User not found." }
      | some user =>
        { status := 200, success := true, message := "",
          userView? := some (meView user) }

/-! ### Interleaving model for concurrent `verifyOTP` calls

Per §5 of the design the store operations are the suspension points.  After
the (read-only) credential checks, each `verifyOTP` request performs two
store operations: the `findValidOTP` SELECT and the `markOTPAsUsed` UPDATE.
A thread is therefore a two-step program, and a schedule is the list of
thread choices. -/

/-- Progress of one in-flight `verifyOTP` request, starting after its
credential checks succeeded. -/
structure VThread where
  lookedUp : Bool := false
  found : Option Nat := none
  status? : Option Nat := none
deriving Repr, DecidableEq

/-- One store-operation step of a `verifyOTP` request: first the
`findValidOTP` SELECT, then either the 401 rejection or the
`markOTPAsUsed` UPDATE followed by the 200 response. -/
def vthreadStep (env : Env) (email code : String) :
    DB × VThread → DB × VThread
  | (db, t) =>
    if t.status?.isSome then (db, t)
    else if !t.lookedUp then
      (db, { t with lookedUp := true,
                    found := (findValidOTP env db email code).map (fun r => r.id) })
    else match t.found with
      | none => (db, { t with status? := some 401 })
      | some i => (markOTPAsUsed db i, { t with status? := some 200 })

/-- Run two concurrent `verifyOTP` requests under a schedule: `true` steps
thread 1, `false` steps thread 2. -/
def runRace (env : Env) (email code : String) :
    List Bool → DB → VThread → VThread → DB × VThread × VThread
  | [], db, t1, t2 => (db, t1, t2)
  | b :: rest, db, t1, t2 =>
    if b then
      let (db', t1') := vthreadStep env email code (db, t1)
      runRace env email code rest db' t1' t2
    else
      let (db', t2') := vthreadStep env email code (db, t2)
      runRace env email code rest db' t1 t2'

/-! ### Helper lemmas -/

theorem toNat_ofNat_valid {m : Nat} (h : m.isValidChar) :
    (Char.ofNat m).toNat = m := by
  rw [Char.ofNat, dif_pos h]
  rfl

theorem lowerChar_pos {c : Char} (h : 65 ≤ c.toNat ∧ c.toNat ≤ 90) :
    lowerChar c = Char.ofNat (c.toNat + 32) := by
  rw [lowerChar, if_pos h]

theorem lowerChar_neg {c : Char} (h : ¬(65 ≤ c.toNat ∧ c.toNat ≤ 90)) :
    lowerChar c = c := by
  rw [lowerChar, if_neg h]

theorem lowerChar_idem (c : Char) : lowerChar (lowerChar c) = lowerChar c := by
  by_cases h : 65 ≤ c.toNat ∧ c.toNat ≤ 90
  · rw [lowerChar_pos h]
    have hv : (c.toNat + 32).isValidChar := Or.inl (by omega)
    have ht : (Char.ofNat (c.toNat + 32)).toNat = c.toNat + 32 := toNat_ofNat_valid hv
    apply lowerChar_neg
    rw [ht]
    omega
  · rw [lowerChar_neg h, lowerChar_neg h]

theorem jsToLower_idem (s : String) : jsToLower (jsToLower s) = jsToLower s := by
  simp only [jsToLower, List.map_map]
  have hmc : ∀ c ∈ s.data, (lowerChar ∘ lowerChar) c = lowerChar c :=
    fun c _ => lowerChar_idem c
  exact congrArg String.mk (List.map_congr_left hmc)

theorem normEmail_jsToLower (s : String) : normEmail (jsToLower s) = normEmail s :=
  congrArg jsTrim (jsToLower_idem s)

theorem pickLatest_eq_none {l : List OtpRow} : pickLatest l = none ↔ l = [] := by
  induction l with
  | nil => simp [pickLatest]
  | cons a rs ih =>
    simp only [pickLatest]
    cases h : pickLatest rs with
    | none => simp
    | some b => by_cases hc : a.createdAt < b.createdAt <;> simp [hc]

theorem pickLatest_mem {l : List OtpRow} {r : OtpRow} (h : pickLatest l = some r) :
    r ∈ l := by
  induction l with
  | nil => simp [pickLatest] at h
  | cons a rs ih =>
    simp only [pickLatest] at h
    cases hp : pickLatest rs with
    | none =>
      rw [hp] at h
      simp at h
      simp [h]
    | some b =>
      rw [hp] at h
      by_cases hc : a.createdAt < b.createdAt
      · simp [hc] at h
        exact List.mem_cons_of_mem a (ih (by rw [hp, h]))
      · simp [hc] at h
        simp [h]

theorem pickLatest_max {l : List OtpRow} {r : OtpRow} (h : pickLatest l = some r) :
    ∀ s ∈ l, s.createdAt ≤ r.createdAt := by
  induction l generalizing r with
  | nil => simp [pickLatest] at h
  | cons a rs ih =>
    intro s hs
    simp only [pickLatest] at h
    cases hp : pickLatest rs with
    | none =>
      rw [hp] at h
      simp at h
      rcases List.mem_cons.mp hs with hsa | hsr
      · simp [hsa, h]
      · exact absurd (pickLatest_eq_none.mp hp ▸ hsr) (List.not_mem_nil s)
    | some b =>
      rw [hp] at h
      rcases List.mem_cons.mp hs with hsa | hsr
      · subst hsa
        by_cases hc : s.createdAt < b.createdAt
        · simp [hc] at h
          subst h
          omega
        · simp [hc] at h
          simp [h]
      · have hb := ih hp s hsr
        by_cases hc : a.createdAt < b.createdAt
        · simp [hc] at h
          subst h
          exact hb
        · simp [hc] at h
          subst h
          omega

/-- Reference form of base-10 printing: most significant digit first. -/
def natRepr10 (n : Nat) : List Char :=
  if _h : n < 10 then [Nat.digitChar n]
  else natRepr10 (n / 10) ++ [Nat.digitChar (n % 10)]
termination_by n
decreasing_by exact Nat.div_lt_self (by omega) (by omega)

theorem natRepr10_lt {n : Nat} (h : n < 10) : natRepr10 n = [Nat.digitChar n] := by
  rw [natRepr10, dif_pos h]

theorem natRepr10_ge {n : Nat} (h : ¬ n < 10) :
    natRepr10 n = natRepr10 (n / 10) ++ [Nat.digitChar (n % 10)] := by
  rw [natRepr10]
  rw [dif_neg h]

theorem toDigitsCore_eq (fuel : Nat) : ∀ (n : Nat) (ds : List Char), n < fuel →
    Nat.toDigitsCore 10 fuel n ds = natRepr10 n ++ ds := by
  induction fuel with
  | zero => intro n ds h; exact absurd h (Nat.not_lt_zero n)
  | succ f ih =>
    intro n ds h
    by_cases h10 : n < 10
    · have hd : n / 10 = 0 := Nat.div_eq_of_lt h10
      have hm : n % 10 = n := Nat.mod_eq_of_lt h10
      simp only [Nat.toDigitsCore, hd, hm, if_pos]
      rw [natRepr10_lt h10]
      rfl
    · have hne : ¬(n / 10 = 0) := by
        have := Nat.div_pos (by omega : 10 ≤ n) (by omega : 0 < 10)
        omega
      simp only [Nat.toDigitsCore]
      rw [if_neg hne]
      have hlt : n / 10 < f := by
        have h1 : n / 10 < n := Nat.div_lt_self (by omega) (by omega)
        omega
      rw [ih (n / 10) (Nat.digitChar (n % 10) :: ds) hlt]
      rw [natRepr10_ge h10]
      simp

theorem repr_data (n : Nat) : (Nat.repr n).data = natRepr10 n := by
  show (Nat.toDigits 10 n).asString.data = natRepr10 n
  rw [Nat.toDigits, toDigitsCore_eq (n + 1) n [] (Nat.lt_succ_self n)]
  simp [List.asString]

theorem natRepr10_length : ∀ (k n : Nat), 10 ^ k ≤ n → n < 10 ^ (k + 1) →
    (natRepr10 n).length = k + 1 := by
  intro k
  induction k with
  | zero =>
    intro n h1 h2
    rw [natRepr10_lt (by simpa using h2)]
    rfl
  | succ k ih =>
    intro n h1 h2
    have hbig : (10:Nat) ≤ 10 ^ (k + 1) := by
      calc (10:Nat) = 10 ^ 1 := by norm_num
        _ ≤ 10 ^ (k + 1) := Nat.pow_le_pow_right (by omega) (by omega)
    have h10 : ¬ n < 10 := by omega
    rw [natRepr10_ge h10]
    have hlo : 10 ^ k ≤ n / 10 := by
      rw [Nat.le_div_iff_mul_le (by omega)]
      calc 10 ^ k * 10 = 10 ^ (k + 1) := by ring
        _ ≤ n := h1
    have hhi : n / 10 < 10 ^ (k + 1) := by
      rw [Nat.div_lt_iff_lt_mul (by omega)]
      calc n < 10 ^ (k + 1 + 1) := h2
        _ = 10 ^ (k + 1) * 10 := by ring
    rw [List.length_append, ih (n / 10) hlo hhi]
    simp

theorem digitChar_isDigit {m : Nat} (h : m < 10) : (Nat.digitChar m).isDigit = true := by
  interval_cases m <;> decide

theorem natRepr10_digits (n : Nat) : (natRepr10 n).all Char.isDigit = true := by
  induction n using Nat.strong_induction_on with
  | _ n ih =>
    by_cases h10 : n < 10
    · rw [natRepr10_lt h10]
      simp [digitChar_isDigit h10]
    · rw [natRepr10_ge h10]
      rw [List.all_append]
      have hrec := ih (n / 10) (Nat.div_lt_self (by omega) (by omega))
      have hlast : [Nat.digitChar (n % 10)].all Char.isDigit = true := by
        simp [digitChar_isDigit (Nat.mod_lt n (by omega))]
      rw [hrec, hlast]
      rfl

/-! ### Store-level lemmas -/

theorem findUserByEmail_some {db : DB} {email : String} {inc : Bool} {u : UserSel}
    (h : findUserByEmail db email inc = some u) :
    ∃ row ∈ db.users, u = selectUser inc row := by
  simp only [findUserByEmail, Option.map_eq_some'] at h
  obtain ⟨row, hrow, hu⟩ := h
  exact ⟨row, List.mem_of_find?_eq_some hrow, hu.symm⟩

theorem findUserById_some {db : DB} {uid : Nat} {inc : Bool} {u : UserSel}
    (h : findUserById db uid inc = some u) :
    ∃ row ∈ db.users, u = selectUser inc row := by
  simp only [findUserById, Option.map_eq_some'] at h
  obtain ⟨row, hrow, hu⟩ := h
  exact ⟨row, List.mem_of_find?_eq_some hrow, hu.symm⟩

theorem createUser_ok_shape {env : Env} {db : DB} {ud : NewUser} {u? : Option UserSel}
    {db2 : DB} (h : createUser env db ud = .ok (u?, db2)) :
    ∀ u, u? = some u → ∃ row ∈ db2.users, u = selectUser false row := by
  intro u hu
  unfold createUser at h
  by_cases h1 : ud.FullName = ""
  · rw [if_pos h1] at h
    exact Except.noConfusion h
  · rw [if_neg h1] at h
    simp only [] at h
    by_cases h2 : (jsTrim ud.FullName).data.length < 2 ∨ (jsTrim ud.FullName).data.length > 100
    · rw [if_pos h2] at h
      exact Except.noConfusion h
    · rw [if_neg h2] at h
      by_cases h3 : (jsTrim ud.FullName).data.all nameCharOk = false
      · rw [if_pos h3] at h
        exact Except.noConfusion h
      · rw [if_neg h3] at h
        by_cases h4 : ud.Email = ""
        · rw [if_pos h4] at h
          exact Except.noConfusion h
        · rw [if_neg h4] at h
          by_cases h5 : (normEmail ud.Email).data.length > 254
          · rw [if_pos h5] at h
            exact Except.noConfusion h
          · rw [if_neg h5] at h
            by_cases h6 : env.isEmail (normEmail ud.Email) = false
            · rw [if_pos h6] at h
              exact Except.noConfusion h
            · rw [if_neg h6] at h
              by_cases h7 : ud.Password = ""
              · rw [if_pos h7] at h
                exact Except.noConfusion h
              · rw [if_neg h7] at h
                by_cases h8 : ud.Password.data.length < 8 ∨ ud.Password.data.length > 64
                · rw [if_pos h8] at h
                  exact Except.noConfusion h
                · rw [if_neg h8] at h
                  by_cases h9 : passwordRegexTest ud.Password = false
                  · rw [if_pos h9] at h
                    exact Except.noConfusion h
                  · rw [if_neg h9] at h
                    by_cases hA : db.users.any (fun v => v.Email == normEmail ud.Email) = true
                    · rw [if_pos hA] at h
                      exact Except.noConfusion h
                    · rw [if_neg hA] at h
                      simp only [Except.ok.injEq, Prod.mk.injEq] at h
                      obtain ⟨hq, hdb⟩ := h
                      subst hdb
                      rw [← hq] at hu
                      exact findUserById_some hu

theorem invalidate_kills (db : DB) (email : String) :
    ∀ r ∈ (invalidateUnusedOTPs db email).otps,
      (r.Email == normEmail email && r.used == false) = false := by
  intro r hr
  simp only [invalidateUnusedOTPs, List.mem_map] at hr
  obtain ⟨a, _, rfl⟩ := hr
  by_cases h : (a.Email == normEmail email && a.used == false) = true
  · rw [if_pos h]
    simp
  · rw [if_neg h]
    simpa using h

theorem otpMatches_iff (env : Env) (email code : String) (s : OtpRow) :
    otpMatches env email code s = true ↔
      (s.Email = normEmail email ∧ s.OTP = code ∧ s.used = false ∧
       env.now < s.expiresAt) := by
  simp [otpMatches, and_assoc]

theorem findValidOTP_some {env : Env} {db : DB} {email code : String} {r : OtpRow}
    (h : findValidOTP env db email code = some r) :
    r ∈ db.otps ∧ otpMatches env email code r = true ∧
      ∀ s ∈ db.otps, otpMatches env email code s = true →
        s.createdAt ≤ r.createdAt := by
  simp only [findValidOTP] at h
  have hmem := pickLatest_mem h
  have hf := List.mem_filter.mp hmem
  refine ⟨hf.1, hf.2, ?_⟩
  intro s hs hms
  exact pickLatest_max h s (List.mem_filter.mpr ⟨hs, hms⟩)

theorem findValidOTP_none_iff {env : Env} {db : DB} {email code : String} :
    findValidOTP env db email code = none ↔
      ∀ s ∈ db.otps, otpMatches env email code s = false := by
  simp only [findValidOTP, pickLatest_eq_none, List.filter_eq_nil_iff]
  constructor
  · intro h s hs
    exact Bool.not_eq_true _ ▸ (h s hs)
  · intro h s hs
    simp [h s hs]

theorem findValidOTP_isSome {env : Env} {db : DB} {email code : String} {s : OtpRow}
    (hs : s ∈ db.otps) (hm : otpMatches env email code s = true) :
    ∃ r, findValidOTP env db email code = some r := by
  cases hp : findValidOTP env db email code with
  | some r => exact ⟨r, rfl⟩
  | none => exact absurd hm (by simp [findValidOTP_none_iff.mp hp s hs])

theorem signupCatch_userView (e : JsError) : (signupCatch e).userView? = none := by
  unfold signupCatch
  split
  · rfl
  · split
    · rfl
    · rfl

/-! ### Sample data used by the concrete instantiations -/

def sampleUser : UserRow :=
  { id := 1, FullName := "Jane Doe", Email := "jane@x.com", Password := "hash1",
    passwordChangedAt := some 5, createdAt := 10, updatedAt := 20 }

def sampleOtp : OtpRow :=
  { id := 1, Email := "jane@x.com", OTP := "123456", expiresAt := 601000,
    used := false, createdAt := 900 }

def sampleDb : DB :=
  { users := [sampleUser], otps := [sampleOtp], nextUserId := 2, nextOtpId := 2 }

def sampleEnv : Env :=
  { now := 1000
    random := 1/2
    hashFn := fun _ => "hash1"
    verifyFn := fun p h => p == "Abcd12!@" && h == "hash1"
    isEmail := fun s => segmentOf ['@'] s.data
    jwtSign := fun i => String.append "token" (Nat.repr i)
    jwtVerify := fun s => if s == "token1" then .ok 1 else .bad }

/-! ### Claim theorems -/

/-- C7: `markOTPAsUsed` (the implementation of the spec's `markUsed`) is
idempotent: a second application to the same id changes nothing (and, being
a total function, raises no error), and after marking, every record with
that id has `used = true`. -/
theorem claim7_markUsed_idempotent (db : DB) (otpId : Nat) :
    markOTPAsUsed (markOTPAsUsed db otpId) otpId = markOTPAsUsed db otpId ∧
    ∀ r ∈ (markOTPAsUsed db otpId).otps, r.id = otpId → r.used = true := by
  constructor
  · simp only [markOTPAsUsed, List.map_map]
    congr 1
    apply List.map_congr_left
    intro a _
    by_cases h : (a.id == otpId) = true
    · simp [Function.comp, h]
    · simp [Function.comp, h]
  · intro r hr hid
    simp only [markOTPAsUsed, List.mem_map] at hr
    obtain ⟨a, _, rfl⟩ := hr
    by_cases h : (a.id == otpId) = true
    · simp [h]
    · rw [if_neg h] at hid ⊢
      exact absurd (beq_iff_eq.mpr hid) h

/-- C7 witness: idempotence evaluated on the sample store. -/
theorem claim7_witness :
    markOTPAsUsed (markOTPAsUsed sampleDb 1) 1 = markOTPAsUsed sampleDb 1 ∧
    sampleOtp ∈ sampleDb.otps :=
  ⟨(claim7_markUsed_idempotent sampleDb 1).1, by decide⟩

/-- C6: for every draw of `Math.random()` in `[0,1)`, `generateOTP` yields a
string of exactly 6 ASCII digits, the underlying integer lies in
`[100000, 999999]`, and the `padStart` call never has to pad (no
leading-zero collapse). -/
theorem claim6_generateOTP_format (r : ℚ) (h0 : 0 ≤ r) (h1 : r < 1) :
    (generateOTP r).length = 6 ∧
    (generateOTP r).data.all Char.isDigit = true ∧
    100000 ≤ otpNum r ∧ otpNum r ≤ 999999 ∧
    generateOTP r = Nat.repr (otpNum r) := by
  have hx0 : (100000 : ℚ) ≤ 100000 + r * 900000 := by nlinarith
  have hx1 : (100000 : ℚ) + r * 900000 < 1000000 := by nlinarith
  have hfl : (100000 : ℤ) ≤ ⌊(100000 : ℚ) + r * 900000⌋ :=
    Int.le_floor.mpr (by exact_mod_cast hx0)
  have hfu : ⌊(100000 : ℚ) + r * 900000⌋ < 1000000 :=
    Int.floor_lt.mpr (by exact_mod_cast hx1)
  have hnl : 100000 ≤ otpNum r := by unfold otpNum; omega
  have hnu : otpNum r ≤ 999999 := by unfold otpNum; omega
  have hlen : (Nat.repr (otpNum r)).length = 6 := by
    show (Nat.repr (otpNum r)).data.length = 6
    rw [repr_data]
    have h5 : 10 ^ 5 ≤ otpNum r := by norm_num; omega
    have h6 : otpNum r < 10 ^ 6 := by norm_num; omega
    simpa using natRepr10_length 5 (otpNum r) h5 h6
  have hgen : generateOTP r = Nat.repr (otpNum r) := by
    rw [generateOTP, jsPadStart, if_pos (le_of_eq hlen.symm)]
  refine ⟨by rw [hgen, hlen], ?_, hnl, hnu, hgen⟩
  rw [hgen, repr_data]
  exact natRepr10_digits (otpNum r)

/-- C6 witness: the theorem instantiated at the draw `1/2`, which generates
the code `550000`. -/
theorem claim6_witness :
    (0 : ℚ) ≤ 1/2 ∧ (1/2 : ℚ) < 1 ∧ (generateOTP (1/2)).length = 6 ∧
    100000 ≤ otpNum (1/2) ∧ otpNum (1/2) ≤ 999999 ∧ generateOTP (1/2) = "550000" := by
  have hthm := claim6_generateOTP_format (1/2) (by norm_num) (by norm_num)
  have hv : otpNum (1/2) = 550000 := by
    unfold otpNum
    have he : (100000 : ℚ) + (1/2) * 900000 = ((550000 : ℤ) : ℚ) := by norm_num
    rw [he, Int.floor_intCast]
    rfl
  refine ⟨by norm_num, by norm_num, hthm.1, hthm.2.2.1, hthm.2.2.2.1, ?_⟩
  rw [hthm.2.2.2.2, hv]
  decide

/-- C3: `findValidOTP` returns a record exactly when some stored row matches
the canonicalized email, the code, `used = false` and `expiresAt` strictly
after now; any returned record satisfies those conditions and has maximal
`createdAt` among the matching rows; and if every row for that email and
code has already expired, the lookup returns null even where `used` is
still false. -/
theorem claim3_findValidOTP_spec (env : Env) (db : DB) (email code : String) :
    ((∃ r, findValidOTP env db email code = some r) ↔
      ∃ s ∈ db.otps, s.Email = normEmail email ∧ s.OTP = code ∧
        s.used = false ∧ env.now < s.expiresAt) ∧
    (∀ r, findValidOTP env db email code = some r →
      r ∈ db.otps ∧ r.Email = normEmail email ∧ r.OTP = code ∧ r.used = false ∧
        env.now < r.expiresAt ∧
        ∀ s ∈ db.otps, s.Email = normEmail email → s.OTP = code →
          s.used = false → env.now < s.expiresAt → s.createdAt ≤ r.createdAt) ∧
    ((∀ s ∈ db.otps, s.Email = normEmail email → s.OTP = code →
        s.used = false → s.expiresAt ≤ env.now) →
      findValidOTP env db email code = none) := by
  refine ⟨⟨?_, ?_⟩, ?_, ?_⟩
  · rintro ⟨r, hr⟩
    obtain ⟨hmem, hmt, _⟩ := findValidOTP_some hr
    exact ⟨r, hmem, (otpMatches_iff env email code r).mp hmt⟩
  · rintro ⟨s, hs, hprop⟩
    exact findValidOTP_isSome hs ((otpMatches_iff env email code s).mpr hprop)
  · intro r hr
    obtain ⟨hmem, hmt, hmax⟩ := findValidOTP_some hr
    obtain ⟨he, hc, hu, hexp⟩ := (otpMatches_iff env email code r).mp hmt
    refine ⟨hmem, he, hc, hu, hexp, ?_⟩
    intro s hs hse hsc hsu hsx
    exact hmax s hs ((otpMatches_iff env email code s).mpr ⟨hse, hsc, hsu, hsx⟩)
  · intro hall
    rw [findValidOTP_none_iff]
    intro s hs
    rw [← Bool.not_eq_true]
    intro hmt
    obtain ⟨he, hc, hu, hexp⟩ := (otpMatches_iff env email code s).mp hmt
    exact absurd (hall s hs he hc hu) (by omega)

/-- C3 witness: the lookup on the sample store, with an email that needs
both lowercasing and trimming, returns the stored record; the returned
record is in the store and matches the canonicalized email. -/
theorem claim3_witness :
    findValidOTP sampleEnv sampleDb " Jane@X.COM" "123456" = some sampleOtp ∧
    sampleOtp ∈ sampleDb.otps ∧ sampleOtp.Email = normEmail " Jane@X.COM" := by
  have h : findValidOTP sampleEnv sampleDb " Jane@X.COM" "123456" = some sampleOtp := by
    decide
  have hc := (claim3_findValidOTP_spec sampleEnv sampleDb " Jane@X.COM" "123456").2.1
    sampleOtp h
  exact ⟨h, hc.1, hc.2.1⟩

/-- C5: login step 1 returns one identical generic 401 rejection both when
no account exists and when hash verification fails, leaves the store
untouched in both cases, and returns no OTP. -/
theorem claim5_login_generic_rejection (env : Env) (db : DB) (req : LoginReq)
    (hE : req.Email ≠ "") (hP : req.Password ≠ "")
    (hbad : findUserByEmail db req.Email true = none ∨
      ∃ u, findUserByEmail db req.Email true = some u ∧
        env.verifyFn req.Password (u.Password?.getD "") = false) :
    (login env db req).1 =
      { status := 401, success := false,
        message := "Invalid credentials. Email or password is incorrect." } ∧
    (login env db req).2 = db ∧
    (login env db req).1.otp? = none := by
  rcases hbad with hnone | ⟨u, hu, hv⟩
  · simp [login, hE, hP, hnone]
  · simp [login, hE, hP, hu, hv]

/-- C5 witness: a wrong password on the sample account yields the 401
rejection and an unchanged store. -/
theorem claim5_witness :
    (login sampleEnv sampleDb ⟨"jane@x.com", "WrongPw1!"⟩).1.status = 401 ∧
    (login sampleEnv sampleDb ⟨"jane@x.com", "WrongPw1!"⟩).2 = sampleDb := by
  have h := claim5_login_generic_rejection sampleEnv sampleDb
    ⟨"jane@x.com", "WrongPw1!"⟩ (by decide) (by decide)
    (Or.inr ⟨selectUser true sampleUser, by decide, by decide⟩)
  exact ⟨by rw [h.1], h.2.1⟩

/-- C10 (implicit): the verify-OTP handler applies no OTP format check
beyond presence — for any non-empty code, even one rejected by
`isValidOTPFormat`, a request with valid credentials whose code matches no
stored row is rejected only via the store lookup, with the generic 401
invalid-or-expired response, and the store is unchanged. -/
theorem claim10_verify_no_format_gate (env : Env) (db : DB) (req : VerifyReq)
    (u : UserSel)
    (hE : req.Email ≠ "") (hP : req.Password ≠ "") (hC : req.OTP ≠ "")
    (_hfmt : isValidOTPFormat req.OTP = false)
    (hu : findUserByEmail db req.Email true = some u)
    (hpw : env.verifyFn req.Password (u.Password?.getD "") = true)
    (hno : ∀ s ∈ db.otps, s.Email = normEmail req.Email → s.OTP = req.OTP →
      s.used = false → s.expiresAt ≤ env.now) :
    (verifyOTP env db req).1 =
      { status := 401, success := false,
        message := "Invalid or expired OTP. Please request a new OTP." } ∧
    (verifyOTP env db req).2 = db := by
  have hnone : findValidOTP env db req.Email req.OTP = none := by
    rw [findValidOTP_none_iff]
    intro s hs
    rw [← Bool.not_eq_true]
    intro hmt
    obtain ⟨he, hc, husd, _hexp⟩ := (otpMatches_iff env req.Email req.OTP s).mp hmt
    exact absurd (hno s hs he hc husd) (by omega)
  simp [verifyOTP, hE, hP, hC, hu, hpw, hnone]

/-- C10 witness: the 5-character non-numeric code `abc12` (which fails
`isValidOTPFormat`) passes the presence check and is rejected with the
generic 401 store-lookup response. -/
theorem claim10_witness :
    isValidOTPFormat "abc12" = false ∧
    (verifyOTP sampleEnv sampleDb ⟨"jane@x.com", "Abcd12!@", "abc12"⟩).1.status = 401 ∧
    (verifyOTP sampleEnv sampleDb ⟨"jane@x.com", "Abcd12!@", "abc12"⟩).1.message =
      "Invalid or expired OTP. Please request a new OTP." := by
  have h := claim10_verify_no_format_gate sampleEnv sampleDb
    ⟨"jane@x.com", "Abcd12!@", "abc12"⟩ (selectUser true sampleUser)
    (by decide) (by decide) (by decide) (by decide) (by decide) (by decide)
    (by decide)
  exact ⟨by decide, by rw [h.1], by rw [h.1]⟩

/-- C2: a completed (sequential) login step 1 runs `invalidateUnusedOTPs`
before `createOTP`, so afterwards exactly one unused OTP row exists for the
canonicalized email (hence at most one valid one), and no previously stored
unused row for that email can ever be returned by `findValidOTP` again. -/
theorem claim2_login_invalidate_then_create (env : Env) (db : DB)
    (req : LoginReq) (u : UserSel)
    (hE : req.Email ≠ "") (hP : req.Password ≠ "")
    (hu : findUserByEmail db req.Email true = some u)
    (hpw : env.verifyFn req.Password (u.Password?.getD "") = true)
    (hfresh : ∀ r ∈ db.otps, r.id < db.nextOtpId) :
    (login env db req).1.status = 200 ∧
    ((login env db req).2.otps.filter
      (fun r => r.Email == normEmail req.Email && r.used == false)).length = 1 ∧
    ∀ r ∈ db.otps, r.Email = normEmail req.Email → r.used = false →
      ∀ (env2 : Env) (q c : String),
        findValidOTP env2 (login env db req).2 q c ≠ some r := by
  have hrow : normEmail (jsToLower req.Email) = normEmail req.Email :=
    normEmail_jsToLower req.Email
  have h2 : (login env db req).2 =
      { users := db.users
        otps := (invalidateUnusedOTPs db req.Email).otps ++
          [{ id := db.nextOtpId
             Email := normEmail (jsToLower req.Email)
             OTP := generateOTP env.random
             expiresAt := getOTPExpiration env 10
             used := false
             createdAt := env.now }]
        nextUserId := db.nextUserId
        nextOtpId := db.nextOtpId + 1 } := by
    simp [login, hE, hP, hu, hpw, createOTP, invalidateUnusedOTPs]
  have h1 : (login env db req).1.status = 200 := by
    simp [login, hE, hP, hu, hpw, createOTP]
  refine ⟨h1, ?_, ?_⟩
  · rw [h2]
    rw [List.filter_append]
    have hnil : (invalidateUnusedOTPs db req.Email).otps.filter
        (fun r => r.Email == normEmail req.Email && r.used == false) = [] :=
      List.filter_eq_nil_iff.mpr (fun r hr => by
        rw [invalidate_kills db req.Email r hr]
        simp)
    rw [hnil]
    simp [hrow]
  · intro r hmem hEm hUs env2 q c hcontra
    rw [h2] at hcontra
    obtain ⟨hmem', _, _⟩ := findValidOTP_some hcontra
    simp only [List.mem_append, List.mem_singleton] at hmem'
    rcases hmem' with hold | hnew
    · have hk := invalidate_kills db req.Email r hold
      rw [hEm, hUs] at hk
      simp at hk
    · have hid : r.id = db.nextOtpId := by rw [hnew]
      exact absurd (hfresh r hmem) (by omega)

/-- C2 witness: a successful login on the sample store leaves exactly one
unused OTP row for the email. -/
theorem claim2_witness :
    (login sampleEnv sampleDb ⟨"jane@x.com", "Abcd12!@"⟩).1.status = 200 ∧
    ((login sampleEnv sampleDb ⟨"jane@x.com", "Abcd12!@"⟩).2.otps.filter
      (fun r => r.Email == normEmail "jane@x.com" && r.used == false)).length = 1 := by
  have h := claim2_login_invalidate_then_create sampleEnv sampleDb
    ⟨"jane@x.com", "Abcd12!@"⟩ (selectUser true sampleUser)
    (by decide) (by decide) (by decide) (by decide) (by decide)
  exact ⟨h.1, h.2.1⟩

/-- C1 (code bug): with one valid stored OTP, two concurrent verify-OTP
requests interleaved as find₁, find₂, mark₁, mark₂ BOTH succeed with 200 —
`markOTPAsUsed` runs `UPDATE otps SET used = 1 WHERE id = ?` with no
`AND used = 0` guard and the affected-row count is never inspected, so the
second caller is not rejected.  Under the serialized schedule the second
request does get the 401, showing the race is the only protection. -/
theorem claim1_race_both_verifies_succeed :
    (runRace sampleEnv "jane@x.com" "123456" [true, false, true, false]
      sampleDb {} {}).2.1.status? = some 200 ∧
    (runRace sampleEnv "jane@x.com" "123456" [true, false, true, false]
      sampleDb {} {}).2.2.status? = some 200 ∧
    (runRace sampleEnv "jane@x.com" "123456" [true, true, false, false]
      sampleDb {} {}).2.1.status? = some 200 ∧
    (runRace sampleEnv "jane@x.com" "123456" [true, true, false, false]
      sampleDb {} {}).2.2.status? = some 401 := by
  decide

/-- A 60-character bcrypt-format digest (`$2a$12$` plus 53 characters of
bcrypt's base-64 alphabet, which includes `.` and `/`): the shape every
`bcryptjs.hash(password, 12)` result has. -/
def bcryptHash : String := "$2a$12$R9h/cIPz0gi.URNNX3kh2OPST9/PgBkqquzi.Ss7KIUgO2t0jWMUW"

/-- Environment whose hasher returns `bcryptHash` and whose email validator
accepts everything — isolating the `createUser` hash-validation path. -/
def bugEnv : Env :=
  { now := 0
    random := 1/2
    hashFn := fun _ => bcryptHash
    verifyFn := fun _ _ => true
    isEmail := fun _ => true
    jwtSign := fun i => Nat.repr i
    jwtVerify := fun _ => .bad }

/-- The same environment with a hash that happens to avoid `.` and `/` and
to satisfy `PASSWORD_REGEX`. -/
def okEnv : Env := { bugEnv with hashFn := fun _ => "Aa1@Aa1@Aa1@" }

/-- The empty store. -/
def emptyDb : DB := { users := [], otps := [], nextUserId := 1, nextOtpId := 1 }

/-- C4 (code bug): a fully valid signup is rejected with a 500 and no user
row whenever the bcrypt digest contains `.` or `/`, because `createUser`
re-applies the plaintext `PASSWORD_REGEX` to the *hash*; with a digest that
happens to satisfy the regex the very same request returns 201 and creates
exactly one row. -/
theorem claim4_signup_500_on_bcrypt_hash :
    (signup bugEnv emptyDb ⟨"Jane Doe", "jane@x.com", "Abcd12!@", "Abcd12!@"⟩).1.status = 500 ∧
    (signup bugEnv emptyDb ⟨"Jane Doe", "jane@x.com", "Abcd12!@", "Abcd12!@"⟩).1.message =
      "Error creating user account" ∧
    (signup bugEnv emptyDb ⟨"Jane Doe", "jane@x.com", "Abcd12!@", "Abcd12!@"⟩).2.users = [] ∧
    bcryptHash.data.length = 60 ∧
    passwordRegexTest bcryptHash = false ∧
    strIncludes bcryptHash "." = true ∧
    passwordRegexTest "Aa1@Aa1@Aa1@" = true ∧
    (signup okEnv emptyDb ⟨"Jane Doe", "jane@x.com", "Abcd12!@", "Abcd12!@"⟩).1.status = 201 ∧
    (signup okEnv emptyDb ⟨"Jane Doe", "jane@x.com", "Abcd12!@", "Abcd12!@"⟩).2.users.length = 1 := by
  decide

/-- A driver-level connection failure as `error.message` would carry it. -/
def sqlErr : JsError := ⟨none, "connect ECONNREFUSED 127.0.0.1:3306"⟩

/-- C8 counterexample: the login handler's catch block returns the raw
internal error message to the client in the body's `error` field — the
response is not "a generic message only". -/
theorem claim8_cex_raw_error_returned :
    (loginCatch sqlErr).status = 500 ∧
    (loginCatch sqlErr).error? = some "connect ECONNREFUSED 127.0.0.1:3306" ∧
    (loginCatch sqlErr).error? ≠ none := by
  decide

/-- C8 amended: every exception reaching the login or verify-OTP handler
yields a 500 whose body has a generic `message` AND an `error` field
carrying the raw error message; the signup handler first maps
`ER_DUP_ENTRY` to a 409, and otherwise returns 400 or 500, again exposing
the raw message. -/
theorem claim8_amended_catch_exposes_message (e : JsError) :
    loginCatch e =
      { status := 500, success := false,
        message := "Error during login", error? := some e.message } ∧
    verifyOTPCatch e =
      { status := 500, success := false,
        message := "Error verifying OTP", error? := some e.message } ∧
    (e.code? = some "ER_DUP_ENTRY" → (signupCatch e).status = 409) ∧
    (e.code? ≠ some "ER_DUP_ENTRY" →
      (signupCatch e).error? = some e.message ∧
      ((signupCatch e).status = 400 ∨ (signupCatch e).status = 500)) := by
  refine ⟨rfl, rfl, ?_, ?_⟩
  · intro h
    simp [signupCatch, h]
  · intro h
    unfold signupCatch
    rw [if_neg h]
    by_cases hk : (strIncludes e.message "required" || strIncludes e.message "must be" ||
        strIncludes e.message "can only contain" || strIncludes e.message "Invalid" ||
        strIncludes e.message "too long") = true
    · rw [if_pos hk]
      exact ⟨rfl, Or.inl rfl⟩
    · rw [if_neg hk]
      exact ⟨rfl, Or.inr rfl⟩

/-- C8 witness: the amended statement applied to a concrete error. -/
theorem claim8_witness :
    loginCatch ⟨none, "boom"⟩ =
      { status := 500, success := false,
        message := "Error during login", error? := some "boom" } ∧
    (signupCatch ⟨none, "boom"⟩).error? = some "boom" := by
  have h := claim8_amended_catch_exposes_message ⟨none, "boom"⟩
  exact ⟨h.1, (h.2.2.2 (by decide)).1⟩

/-- The spec's public user projection, stated from the spec's own words:
"identity id, display name, email, creation/update timestamps — password
hash never included".  Used to compare the code's response objects against
the spec. -/
def specPublicProjection (u : UserRow) : UserView :=
  { id := u.id, FullName := u.FullName, Email := u.Email,
    createdAt := u.createdAt, updatedAt := u.updatedAt }

/-- C9 counterexample: a successful `GET /me` response's user object is not
the spec's public projection — it additionally carries the
`passwordChangedAt` column that the middleware's SELECT included. -/
theorem claim9_cex_me_has_extra_field :
    (meEndpoint sampleEnv sampleDb "token1").status = 200 ∧
    (meEndpoint sampleEnv sampleDb "token1").userView? ≠
      some (specPublicProjection sampleUser) ∧
    (meEndpoint sampleEnv sampleDb "token1").userView? =
      some { specPublicProjection sampleUser with
             passwordChangedAt? := some (some 5) } := by
  decide


/-- C9 amended: the user objects of successful signup and verify-OTP
responses are exactly the spec's public projection of a stored row; a
successful `GET /me` returns that projection plus the `passwordChangedAt`
field; the password hash is never included in any of the three. -/
theorem claim9_amended_projections (env : Env) (db : DB) (sreq : SignupReq)
    (vreq : VerifyReq) (tok : String) :
    (∀ v, (signup env db sreq).1.userView? = some v →
      v.Password? = none ∧ v.passwordChangedAt? = none ∧
      ∃ row ∈ (signup env db sreq).2.users, v = specPublicProjection row) ∧
    (∀ v, (verifyOTP env db vreq).1.userView? = some v →
      v.Password? = none ∧ v.passwordChangedAt? = none ∧
      ∃ row ∈ db.users, v = specPublicProjection row) ∧
    (∀ v, (meEndpoint env db tok).userView? = some v →
      v.Password? = none ∧
      ∃ row ∈ db.users,
        v = { specPublicProjection row with
              passwordChangedAt? := some row.passwordChangedAt }) := by
  refine ⟨?_, ?_, ?_⟩
  · intro v hv
    by_cases h1 : sreq.FullName = "" ∨ sreq.Email = "" ∨ sreq.Password = "" ∨
        sreq.ConfirmPassword = ""
    · simp [signup, h1] at hv
    · by_cases h2 : sreq.Password ≠ sreq.ConfirmPassword
      · simp [signup, h1, h2] at hv
      · cases hfe : findUserByEmail db sreq.Email false with
        | some w => simp [signup, h1, h2, hfe] at hv
        | none =>
          cases hcu : createUser env db
              ⟨jsTrim sreq.FullName, jsToLower sreq.Email, env.hashFn sreq.Password⟩ with
          | error e => simp [signup, h1, h2, hfe, hcu, signupCatch_userView] at hv
          | ok pr =>
            obtain ⟨u?, db2⟩ := pr
            cases u? with
            | none => simp [signup, h1, h2, hfe, hcu, signupCatch_userView] at hv
            | some user =>
              simp [signup, h1, h2, hfe, hcu] at hv ⊢
              obtain ⟨row, hrow, hsel⟩ := createUser_ok_shape hcu user rfl
              subst hv
              rw [hsel]
              exact ⟨rfl, rfl, row, hrow, rfl⟩
  · intro v hv
    by_cases h1 : vreq.Email = "" ∨ vreq.Password = "" ∨ vreq.OTP = ""
    · simp [verifyOTP, h1] at hv
    · cases hfe : findUserByEmail db vreq.Email true with
      | none => simp [verifyOTP, h1, hfe] at hv
      | some user =>
        by_cases h2 : env.verifyFn vreq.Password (user.Password?.getD "") = false
        · simp [verifyOTP, h1, hfe, h2] at hv
        · cases hfv : findValidOTP env db vreq.Email vreq.OTP with
          | none => simp [verifyOTP, h1, hfe, h2, hfv] at hv
          | some orec =>
            simp [verifyOTP, h1, hfe, h2, hfv] at hv
            obtain ⟨row, hrow, hsel⟩ := findUserByEmail_some hfe
            subst hv
            rw [hsel]
            exact ⟨rfl, rfl, row, hrow, rfl⟩
  · intro v hv
    by_cases h1 : tok = ""
    · simp [meEndpoint, h1] at hv
    · cases hjw : env.jwtVerify tok with
      | bad => simp [meEndpoint, h1, hjw] at hv
      | expired => simp [meEndpoint, h1, hjw] at hv
      | ok uid =>
        cases hfi : findUserById db uid false with
        | none => simp [meEndpoint, h1, hjw, hfi] at hv
        | some user =>
          simp [meEndpoint, h1, hjw, hfi] at hv
          obtain ⟨row, hrow, hsel⟩ := findUserById_some hfi
          subst hv
          rw [hsel]
          exact ⟨rfl, row, hrow, rfl⟩

/-- C9 witness: the amended statement applied to the sample `GET /me`
request. -/
theorem claim9_witness :
    (meView (selectUser false sampleUser)).Password? = none ∧
    ∃ row ∈ sampleDb.users,
      meView (selectUser false sampleUser) =
        { specPublicProjection row with
          passwordChangedAt? := some row.passwordChangedAt } :=
  (claim9_amended_projections sampleEnv sampleDb ⟨"", "", "", ""⟩ ⟨"", "", ""⟩
    "token1").2.2 (meView (selectUser false sampleUser)) (by decide)


end Payflow
